import Mathlib

/-!
Verification of the io-launch CLI (`main.go`).

Shallow embedding of the launch-configuration resolver and Docker command
builder from `main.go`.  External processes (`docker`, `uname`, `sysctl`,
`nvidia-smi`, `nvidia-ctk`) are modelled as inputs: each probe's result is a
field of a `World` record, and standard input is a list of the strings that
successive successful `fmt.Scanln` calls would deliver (an exhausted list
models a read failure such as end of input).
-/

namespace IoLaunch

/-- Source: `var repoNames = ...` (main.go line 14). -/
def repoNames : List String :=
  ["ionetcontainers/io-worker-vc", "ionetcontainers/io-worker-monitor", "ionetcontainers/io-launch"]

/-- Source: `var validArchChoices = ...` (main.go line 15). -/
def validArchChoices : List String := ["x86_64", "arm64", "aarch64"]

/-- Source: `var validOSChoices = ...` (main.go line 16). -/
def validOSChoices : List String := ["macOS", "Linux"]

/-- Source: `func contains(slice []string, str string) bool` (main.go lines 19-26). -/
def contains (slice : List String) (str : String) : Bool :=
  slice.any fun s => s == str

/-- Hex digit test, as `xtob` of `github.com/google/uuid` accepts:
`0-9`, `a-f`, `A-F`. -/
def isHexDigit (c : Char) : Bool :=
  (('0' ≤ c) && (c ≤ '9')) || (('a' ≤ c) && (c ≤ 'f')) || (('A' ≤ c) && (c ≤ 'F'))

/-- The canonical 36-character form `xxxxxxxx-xxxx-xxxx-xxxx-xxxxxxxxxxxx`:
hyphens at indices 8, 13, 18, 23 and hex digits everywhere else
(`uuid.Parse`, the common tail after the length switch). -/
def isUUIDHyphenated (cs : List Char) : Bool :=
  cs.length == 36 &&
  (List.range 36).all fun i =>
    if i == 8 || i == 13 || i == 18 || i == 23 then cs.getD i ' ' == '-'
    else isHexDigit (cs.getD i ' ')

/-- ASCII lower-casing, enough for `strings.EqualFold` on the ASCII prefix
`urn:uuid:`. -/
def asciiLower (c : Char) : Char :=
  if ('A' ≤ c) && (c ≤ 'Z') then Char.ofNat (c.toNat + 32) else c

/-- Source: `func isValidUUID(value string) bool` (main.go lines 29-32), following
`uuid.Parse` of `github.com/google/uuid`: length 36 is the canonical form,
length 45 is `urn:uuid:` (case-insensitive) plus the canonical form,
length 38 drops the first byte and checks the following 36 (the brace form;
the parser never inspects the two brace characters themselves), length 32 is
32 hex digits, and everything else fails.  Go indexes bytes; this model
indexes characters, which coincides on ASCII input. -/
def isValidUUID (value : String) : Bool :=
  let cs := value.data
  if cs.length == 36 then isUUIDHyphenated cs
  else if cs.length == 45 then
    ((cs.take 9).map asciiLower == "urn:uuid:".data) && isUUIDHyphenated (cs.drop 9)
  else if cs.length == 38 then isUUIDHyphenated ((cs.drop 1).take 36)
  else if cs.length == 32 then cs.all isHexDigit
  else false

/-- Go `strings.TrimSpace`: drop leading and trailing whitespace.  (Defined on
the character list so that it evaluates by kernel reduction; Go trims
`unicode.IsSpace` characters, which agrees with `Char.isWhitespace` on the
ASCII whitespace the modelled outputs contain.) -/
def goTrimSpace (s : String) : String :=
  ⟨((s.data.dropWhile Char.isWhitespace).reverse.dropWhile Char.isWhitespace).reverse⟩

/-- Go `strings.Split(s, "\n")`: split at every newline, keeping empty
pieces. -/
def goSplitNewline (s : String) : List String :=
  (s.data.splitOn '\n').map fun t => ⟨t⟩

/-- Go `strings.Fields`: split on whitespace runs, dropping empty pieces. -/
def goFields (s : String) : List String :=
  ((s.data.splitOnP Char.isWhitespace).filter fun t => t ≠ []).map fun t => ⟨t⟩

/-- Source: `type Arguments struct` (main.go lines 213-221). -/
structure Arguments where
  DeviceName : String
  DeviceID : String
  UserID : String
  OperatingSystem : String
  UseGPUs : String
  Architecture : String
  Beta : Bool
deriving Repr, DecidableEq

/-- The seven command-line flags (main.go lines 224-230); every string flag
defaults to `""` and `beta` defaults to `false`. -/
structure Flags where
  device_name : String
  device_id : String
  user_id : String
  operating_system : String
  usegpus : String
  arch : String
  beta : Bool
deriving Repr, DecidableEq

/-- The JSON cache loaded by `loadCache` (main.go lines 175-193), modelled as
an association list of string-valued entries — the shape `saveCache` writes. -/
abbrev Cache : Type := List (String × String)

/-- Formatting `fmt.Sprintf("%v", cache[k])` (main.go lines 238-256): a present entry
formats as its string, a missing key is an untyped `nil`, which `%v`
renders as the literal `<nil>`. -/
def cacheFormat (c : Cache) (k : String) : String :=
  match List.lookup k c with
  | some v => v
  | none => "<nil>"

/-- The flag/cache fallback block of `main` (main.go lines 235-257),
verbatim: `args := new(Arguments)` starts from the zero value, and every
branch — one per flag — assigns into `args.DeviceName`.  No branch ever
copies a flag value into the record. -/
def fallbackResolve (f : Flags) (c : Cache) : Arguments :=
  let a : Arguments :=
    { DeviceName := "", DeviceID := "", UserID := "", OperatingSystem := "",
      UseGPUs := "", Architecture := "", Beta := false }
  let a := if f.device_name = "" then { a with DeviceName := cacheFormat c "device_name" } else a
  let a := if f.device_id = "" then { a with DeviceName := cacheFormat c "device_id" } else a
  let a := if f.user_id = "" then { a with DeviceName := cacheFormat c "user_id" } else a
  let a := if f.operating_system = "" then { a with DeviceName := cacheFormat c "operating_system" } else a
  let a := if f.usegpus = "" then { a with DeviceName := cacheFormat c "usegpus" } else a
  let a := if f.arch = "" then { a with DeviceName := cacheFormat c "arch" } else a
  if f.beta then { a with DeviceName := cacheFormat c "beta" } else a

/-- One interactive retry loop (`for cond { fmt.Scanln(&field); ... }`,
main.go lines 275-317 and 329-338): while `cond` holds, read a line — a
read failure (`err != nil`, i.e. the input list is exhausted) makes `main`
`return`, modelled as `none` — store it in the field, and re-test.  The
result carries the updated record and the unconsumed input. -/
def promptLoop (cond : Arguments → Bool) (store : Arguments → String → Arguments) :
    Arguments → List String → Option (Arguments × List String)
  | a, [] => if cond a then none else some (a, [])
  | a, s :: rest =>
    if cond a then promptLoop cond store (store a s) rest
    else some (a, s :: rest)

/-- The four identity/OS prompt loops of `main` (main.go lines 275-317), in
source order, with the exact loop conditions. -/
def resolveIdentityOS (a : Arguments) (inp : List String) :
    Option (Arguments × List String) :=
  (promptLoop (fun x => x.DeviceName == "")
      (fun x s => { x with DeviceName := s }) a inp).bind fun p =>
  (promptLoop (fun x => x.DeviceID == "" || !(isValidUUID x.DeviceID))
      (fun x s => { x with DeviceID := s }) p.1 p.2).bind fun q =>
  (promptLoop (fun x => x.UserID == "" || !(isValidUUID x.UserID))
      (fun x s => { x with UserID := s }) q.1 q.2).bind fun r =>
  promptLoop (fun x => x.OperatingSystem == "" || !(contains validOSChoices x.OperatingSystem))
      (fun x s => { x with OperatingSystem := s }) r.1 r.2

/-- Architecture resolution (main.go lines 319-323).  `unameResult` is the
raw stdout of `uname -m` when it runs successfully, `none` when it fails,
in which case `getPlatformArchitecture` calls `log.Fatal` (main.go
lines 40-47); the successful output is trimmed (`strings.TrimSpace`). -/
def resolveArchitecture (a : Arguments) (unameResult : Option String) :
    Option Arguments :=
  if a.OperatingSystem == "Windows" then some { a with Architecture := "x86_64" }
  else if a.Architecture == "" then
    match unameResult with
    | none => none
    | some s => some { a with Architecture := goTrimSpace s }
  else some a

/-- GPU-flag resolution (main.go lines 325-339): on macOS force `"false"`
with no prompt; otherwise, if unset, loop until the input is exactly
`"true"` or `"false"`; otherwise leave the field untouched. -/
def resolveUseGPUs (a : Arguments) (inp : List String) :
    Option (Arguments × List String) :=
  if a.OperatingSystem == "macOS" then
    some ({ a with UseGPUs := "false" }, inp)
  else if a.UseGPUs == "" then
    promptLoop (fun x => x.UseGPUs == "" || (x.UseGPUs != "true" && x.UseGPUs != "false"))
      (fun x s => { x with UseGPUs := s }) a inp
  else
    some (a, inp)

/-- Source: `func constructDockerCommand(args *Arguments, architecture string) []string`
(main.go lines 134-173).  Each Go `if cond { cmd = append(cmd, X...) }` is a
conditional chunk.  `macInfo` is the raw stdout of the `sysctl machdep`
shell pipeline the function runs when the operating system is macOS
(main.go line 159); the function trims it (`strings.TrimSpace`) before use. -/
def constructDockerCommand (args : Arguments) (architecture : String) (macInfo : String) :
    List String :=
  ["docker", "run", "-d",
   "-v", "/var/run/docker.sock:/var/run/docker.sock", "--network", "host"]
  ++ ["-e", "ARCH=" ++ architecture]
  ++ (if architecture ≠ "x86_64" then ["--platform", "linux/amd64"] else [])
  ++ (if args.DeviceName ≠ "" then ["-e", "DEVICE_NAME=" ++ args.DeviceName] else [])
  ++ (if args.DeviceID ≠ "" then ["-e", "DEVICE_ID=" ++ args.DeviceID] else [])
  ++ (if args.UserID ≠ "" then ["-e", "USER_ID=" ++ args.UserID] else [])
  ++ (if args.OperatingSystem ≠ "" then ["-e", "OPERATING_SYSTEM=" ++ args.OperatingSystem] else [])
  ++ (if args.UseGPUs ≠ "" then ["-e", "USEGPUS=" ++ args.UseGPUs] else [])
  ++ (if args.OperatingSystem = "macOS" then
        ["-e", "MAC_INFO=" ++ goTrimSpace macInfo, "--pull", "always"]
      else [])
  ++ (if args.Beta then
        ["-e", "CURRENT_LOG_LEVEL=DEBUG", "-e", "ENVIRONMENT=DEV",
         "ionetcontainers/io-launch-beta:v0.1"]
      else ["ionetcontainers/io-launch:v0.1"])

/-- Source: `func getDockerImageIDsSorted(repoName string) []string` (main.go
lines 59-74), parameterised by the raw stdout of the external
`docker image ls ... | grep ... | sort -r` pipeline: split the trimmed
output into lines and collect the last whitespace-separated field of every
line that has one. -/
def getDockerImageIDsSorted (output : String) : List String :=
  let sortedImages := goSplitNewline (goTrimSpace output)
  sortedImages.filterMap fun img => (goFields img).getLast?

/-- The per-repository removal performed by `main`'s cleanup loop (main.go
lines 265-273): when more than one image ID is listed, every ID after the
first is passed to `removeDockerImage`. -/
def janitorRemoved (output : String) : List String :=
  let imageIDs := getDockerImageIDsSorted output
  if imageIDs.length > 1 then imageIDs.drop 1 else []

/-- Results of every external probe a run of `main` consults, fixed per run.
`cleanupOk` summarises the container-stop and image-janitor phase (main.go
lines 263-273): its failure paths all call `log.Fatal` or `os.Exit(1)`
after printing a diagnostic, and the phase reads neither `args` nor
standard input. -/
structure World where
  dockerOk1 : Bool
  cleanupOk : Bool
  unameResult : Option String
  gpuOk : Bool
  ctkOk : Bool
  dockerOk2 : Bool
  macSilicon : Bool
  saveOk : Bool
  macInfo : Option String
deriving Repr, DecidableEq

/-- How a run of `main` ends: `exit1` covers every `os.Exit(1)` / `log.Fatal`
path (all of which print a diagnostic first); `silentReturn` is the bare
`return` taken when a `fmt.Scanln` fails, which prints nothing and launches
nothing; `launched` carries the cache snapshot written by `saveCache` and
the executed Docker command. -/
inductive Outcome where
  | exit1 : Outcome
  | silentReturn : Outcome
  | launched : Cache → List String → Outcome
deriving Repr, DecidableEq

/-- The cache snapshot `main` persists on success (main.go lines 366-372). -/
def cacheDataOf (a : Arguments) : Cache :=
  [("device_name", a.DeviceName), ("device_id", a.DeviceID), ("user_id", a.UserID),
   ("operating_system", a.OperatingSystem), ("usegpus", a.UseGPUs)]

/-- The tail of `main` after the prompts (main.go lines 341-381): GPU and
toolkit checks (short-circuit `&&`/`||` folded into one test with the same
outcome), the second `checkDocker`, the post-hoc OS and architecture
validations, the Mac-silicon check, `saveCache` (whose file errors
`log.Fatal`), then `constructDockerCommand` — whose macOS `sysctl` call
`log.Fatal`s when it fails — and execution of the command. -/
def finishMain (a : Arguments) (w : World) : Outcome :=
  if a.OperatingSystem != "macOS" && a.UseGPUs == "true" && !(w.gpuOk && w.ctkOk) then
    .exit1
  else if !w.dockerOk2 then .exit1
  else if !(contains validOSChoices a.OperatingSystem) then .exit1
  else if !(contains validArchChoices a.Architecture) then .exit1
  else if a.OperatingSystem == "macOS" && !w.macSilicon then .exit1
  else if !w.saveOk then .exit1
  else if a.OperatingSystem == "macOS" && w.macInfo.isNone then .exit1
  else
    .launched (cacheDataOf a)
      (constructDockerCommand a a.Architecture (w.macInfo.getD ""))

/-- Source: `func main()` (main.go lines 223-382) for given flag values, loaded
cache, probe results and input lines: fallback block, first `checkDocker`
(exit on failure), container/image cleanup (summarised by `cleanupOk`),
the four prompt loops, architecture resolution, GPU-flag resolution, and
the closing checks and launch. -/
def runMain (f : Flags) (c : Cache) (w : World) (inp : List String) : Outcome :=
  let a0 := fallbackResolve f c
  if !w.dockerOk1 then .exit1
  else if !w.cleanupOk then .exit1
  else
    match resolveIdentityOS a0 inp with
    | none => .silentReturn
    | some (a1, inp1) =>
      match resolveArchitecture a1 w.unameResult with
      | none => .exit1
      | some a2 =>
        match resolveUseGPUs a2 inp1 with
        | none => .silentReturn
        | some (a3, _) => finishMain a3 w

end IoLaunch

namespace IoLaunch

/-!
Helper lemmas shared by the claim theorems.
-/

theorem data_append_ne (p s q : String) (c d : Char) (cs ds : List Char)
    (hp : p.data = c :: cs) (hq : q.data = d :: ds) (hcd : c ≠ d) : p ++ s ≠ q := by
  intro h
  have h2 : (p ++ s).data = q.data := congrArg String.data h
  rw [String.data_append, hp, hq, List.cons_append] at h2
  exact hcd (List.head_eq_of_cons_eq h2)

theorem arch_env_ne_platform (s : String) : "--platform" ≠ "ARCH=" ++ s :=
  fun h => data_append_ne "ARCH=" s "--platform" 'A' '-' ['R','C','H','=']
    ['-','p','l','a','t','f','o','r','m'] rfl rfl (by decide) h.symm

theorem devname_env_ne_platform (s : String) : "--platform" ≠ "DEVICE_NAME=" ++ s :=
  fun h => data_append_ne "DEVICE_NAME=" s "--platform" 'D' '-'
    ['E','V','I','C','E','_','N','A','M','E','=']
    ['-','p','l','a','t','f','o','r','m'] rfl rfl (by decide) h.symm

theorem devid_env_ne_platform (s : String) : "--platform" ≠ "DEVICE_ID=" ++ s :=
  fun h => data_append_ne "DEVICE_ID=" s "--platform" 'D' '-'
    ['E','V','I','C','E','_','I','D','=']
    ['-','p','l','a','t','f','o','r','m'] rfl rfl (by decide) h.symm

theorem userid_env_ne_platform (s : String) : "--platform" ≠ "USER_ID=" ++ s :=
  fun h => data_append_ne "USER_ID=" s "--platform" 'U' '-'
    ['S','E','R','_','I','D','=']
    ['-','p','l','a','t','f','o','r','m'] rfl rfl (by decide) h.symm

theorem os_env_ne_platform (s : String) : "--platform" ≠ "OPERATING_SYSTEM=" ++ s :=
  fun h => data_append_ne "OPERATING_SYSTEM=" s "--platform" 'O' '-'
    ['P','E','R','A','T','I','N','G','_','S','Y','S','T','E','M','=']
    ['-','p','l','a','t','f','o','r','m'] rfl rfl (by decide) h.symm

theorem gpus_env_ne_platform (s : String) : "--platform" ≠ "USEGPUS=" ++ s :=
  fun h => data_append_ne "USEGPUS=" s "--platform" 'U' '-'
    ['S','E','G','P','U','S','=']
    ['-','p','l','a','t','f','o','r','m'] rfl rfl (by decide) h.symm

theorem macinfo_env_ne_platform (s : String) : "--platform" ≠ "MAC_INFO=" ++ s :=
  fun h => data_append_ne "MAC_INFO=" s "--platform" 'M' '-'
    ['A','C','_','I','N','F','O','=']
    ['-','p','l','a','t','f','o','r','m'] rfl rfl (by decide) h.symm

theorem mem_ite_nil_iff {α : Type} (p : Prop) [Decidable p] (l : List α) (x : α) :
    (x ∈ if p then l else []) ↔ (p ∧ x ∈ l) := by
  split <;> simp_all

/-- On an `x86_64` architecture no token of the built command is
`--platform`: the fixed tokens differ from it literally, and every
environment-variable token starts with a letter, not a dash. -/
theorem platform_not_mem (a : Arguments) (m : String) :
    "--platform" ∉ constructDockerCommand a "x86_64" m := by
  cases hb : a.Beta <;>
    simp [constructDockerCommand, hb, mem_ite_nil_iff, arch_env_ne_platform,
      devname_env_ne_platform, devid_env_ne_platform, userid_env_ne_platform,
      os_env_ne_platform, gpus_env_ne_platform, macinfo_env_ne_platform]

/-- On any architecture other than `x86_64` the built command contains the
adjacent tokens `--platform linux/amd64`. -/
theorem platform_infix (a : Arguments) (arch m : String) (h : arch ≠ "x86_64") :
    List.IsInfix ["--platform", "linux/amd64"] (constructDockerCommand a arch m) := by
  refine ⟨["docker", "run", "-d", "-v", "/var/run/docker.sock:/var/run/docker.sock",
      "--network", "host", "-e", "ARCH=" ++ arch],
    (if a.DeviceName ≠ "" then ["-e", "DEVICE_NAME=" ++ a.DeviceName] else [])
    ++ (if a.DeviceID ≠ "" then ["-e", "DEVICE_ID=" ++ a.DeviceID] else [])
    ++ (if a.UserID ≠ "" then ["-e", "USER_ID=" ++ a.UserID] else [])
    ++ (if a.OperatingSystem ≠ "" then ["-e", "OPERATING_SYSTEM=" ++ a.OperatingSystem] else [])
    ++ (if a.UseGPUs ≠ "" then ["-e", "USEGPUS=" ++ a.UseGPUs] else [])
    ++ (if a.OperatingSystem = "macOS" then
          ["-e", "MAC_INFO=" ++ goTrimSpace m, "--pull", "always"] else [])
    ++ (if a.Beta then
          ["-e", "CURRENT_LOG_LEVEL=DEBUG", "-e", "ENVIRONMENT=DEV",
           "ionetcontainers/io-launch-beta:v0.1"]
        else ["ionetcontainers/io-launch:v0.1"]), ?_⟩
  simp [constructDockerCommand, h, List.append_assoc]

/-- Closed form of the fallback block: `DeviceID`, `UserID`,
`OperatingSystem`, `UseGPUs`, `Architecture` and `Beta` always keep their
zero values, and `DeviceName` holds the cache value of the last flag test
that fired (`beta` last, `device_name` first), or `""` when none fired. -/
theorem fallbackResolve_eq (f : Flags) (c : Cache) :
    fallbackResolve f c =
      { DeviceName :=
          if f.beta then cacheFormat c "beta"
          else if f.arch = "" then cacheFormat c "arch"
          else if f.usegpus = "" then cacheFormat c "usegpus"
          else if f.operating_system = "" then cacheFormat c "operating_system"
          else if f.user_id = "" then cacheFormat c "user_id"
          else if f.device_id = "" then cacheFormat c "device_id"
          else if f.device_name = "" then cacheFormat c "device_name"
          else "",
        DeviceID := "", UserID := "", OperatingSystem := "", UseGPUs := "",
        Architecture := "", Beta := false } := by
  unfold fallbackResolve
  split_ifs <;> rfl

theorem fallbackResolve_DeviceID (f : Flags) (c : Cache) :
    (fallbackResolve f c).DeviceID = "" := by
  rw [fallbackResolve_eq]

/-- With no input lines left, the identity/OS prompt phase always fails:
the device-ID field is still empty after the fallback block, so at latest
the device-ID prompt reads, and reading fails. -/
theorem resolveIdentityOS_nil (f : Flags) (c : Cache) :
    resolveIdentityOS (fallbackResolve f c) [] = none := by
  have hid : (fallbackResolve f c).DeviceID = "" := fallbackResolve_DeviceID f c
  cases hname : ((fallbackResolve f c).DeviceName == "") <;>
    simp [resolveIdentityOS, promptLoop, hname, hid]

end IoLaunch

namespace IoLaunch

/-!
Claim theorems.
-/

/-- C1: the claim fails on the code.  With every flag supplied and valid
(`--device_name=dev1`, valid UUIDs, `--operating_system=Linux`,
`--usegpus=false`, `--arch=x86_64`), the fallback block leaves the
`Arguments` record entirely at its zero value — no flag value is ever
copied in — so the run does prompt: with input closed it returns silently
without a command, and with input supplied the launched command carries the
prompted values, not the flag values. -/
theorem c1_all_flags_supplied_are_ignored :
    fallbackResolve
        { device_name := "dev1", device_id := "6ba7b810-9dad-11d1-80b4-00c04fd430c8",
          user_id := "6ba7b811-9dad-11d1-80b4-00c04fd430c8", operating_system := "Linux",
          usegpus := "false", arch := "x86_64", beta := false } [] =
      { DeviceName := "", DeviceID := "", UserID := "", OperatingSystem := "",
        UseGPUs := "", Architecture := "", Beta := false }
    ∧ runMain
        { device_name := "dev1", device_id := "6ba7b810-9dad-11d1-80b4-00c04fd430c8",
          user_id := "6ba7b811-9dad-11d1-80b4-00c04fd430c8", operating_system := "Linux",
          usegpus := "false", arch := "x86_64", beta := false } []
        { dockerOk1 := true, cleanupOk := true, unameResult := some "x86_64",
          gpuOk := true, ctkOk := true, dockerOk2 := true, macSilicon := true,
          saveOk := true, macInfo := some "" } [] = Outcome.silentReturn
    ∧ runMain
        { device_name := "dev1", device_id := "6ba7b810-9dad-11d1-80b4-00c04fd430c8",
          user_id := "6ba7b811-9dad-11d1-80b4-00c04fd430c8", operating_system := "Linux",
          usegpus := "false", arch := "x86_64", beta := false } []
        { dockerOk1 := true, cleanupOk := true, unameResult := some "x86_64",
          gpuOk := true, ctkOk := true, dockerOk2 := true, macSilicon := true,
          saveOk := true, macInfo := some "" }
        ["promptname", "11111111-2222-3333-4444-555555555555",
         "66666666-7777-8888-9999-aaaaaaaaaaaa", "Linux", "true"] =
      Outcome.launched
        [("device_name", "promptname"),
         ("device_id", "11111111-2222-3333-4444-555555555555"),
         ("user_id", "66666666-7777-8888-9999-aaaaaaaaaaaa"),
         ("operating_system", "Linux"), ("usegpus", "true")]
        ["docker", "run", "-d", "-v", "/var/run/docker.sock:/var/run/docker.sock",
         "--network", "host", "-e", "ARCH=x86_64", "-e", "DEVICE_NAME=promptname",
         "-e", "DEVICE_ID=11111111-2222-3333-4444-555555555555", "-e",
         "USER_ID=66666666-7777-8888-9999-aaaaaaaaaaaa", "-e",
         "OPERATING_SYSTEM=Linux", "-e", "USEGPUS=true",
         "ionetcontainers/io-launch:v0.1"] := by
  refine ⟨by decide, by decide, by decide⟩

/-- C2: the claim fails on the code.  With only the `device_id` flag empty
and the cache holding a `device_id` entry, the fallback assigns the cached
UUID to `DeviceName`, not to `DeviceID`, which stays empty. -/
theorem c2_cached_device_id_misrouted_to_device_name :
    fallbackResolve
        { device_name := "n", device_id := "", user_id := "u",
          operating_system := "Linux", usegpus := "false", arch := "x86_64",
          beta := false }
        [("device_id", "6ba7b810-9dad-11d1-80b4-00c04fd430c8")] =
      { DeviceName := "6ba7b810-9dad-11d1-80b4-00c04fd430c8", DeviceID := "",
        UserID := "", OperatingSystem := "", UseGPUs := "", Architecture := "",
        Beta := false } := by
  decide

/-- C3: the claim fails on the code.  A complete run with the `--beta` flag
set still launches the stable image without the debug environment
variables, because `main` never assigns the flag to `Arguments.Beta`
(the flag only routes `cache["beta"]` into `DeviceName`). -/
theorem c3_beta_flag_still_launches_stable_image :
    runMain
        { device_name := "", device_id := "", user_id := "",
          operating_system := "", usegpus := "", arch := "", beta := true }
        [("beta", "x")]
        { dockerOk1 := true, cleanupOk := true, unameResult := some "x86_64",
          gpuOk := true, ctkOk := true, dockerOk2 := true, macSilicon := true,
          saveOk := true, macInfo := some "" }
        ["6ba7b810-9dad-11d1-80b4-00c04fd430c8",
         "6ba7b811-9dad-11d1-80b4-00c04fd430c8", "Linux", "false"] =
      Outcome.launched
        [("device_name", "x"),
         ("device_id", "6ba7b810-9dad-11d1-80b4-00c04fd430c8"),
         ("user_id", "6ba7b811-9dad-11d1-80b4-00c04fd430c8"),
         ("operating_system", "Linux"), ("usegpus", "false")]
        ["docker", "run", "-d", "-v", "/var/run/docker.sock:/var/run/docker.sock",
         "--network", "host", "-e", "ARCH=x86_64", "-e", "DEVICE_NAME=x", "-e",
         "DEVICE_ID=6ba7b810-9dad-11d1-80b4-00c04fd430c8", "-e",
         "USER_ID=6ba7b811-9dad-11d1-80b4-00c04fd430c8", "-e",
         "OPERATING_SYSTEM=Linux", "-e", "USEGPUS=false",
         "ionetcontainers/io-launch:v0.1"]
    ∧ "CURRENT_LOG_LEVEL=DEBUG" ∉
        ["docker", "run", "-d", "-v", "/var/run/docker.sock:/var/run/docker.sock",
         "--network", "host", "-e", "ARCH=x86_64", "-e", "DEVICE_NAME=x", "-e",
         "DEVICE_ID=6ba7b810-9dad-11d1-80b4-00c04fd430c8", "-e",
         "USER_ID=6ba7b811-9dad-11d1-80b4-00c04fd430c8", "-e",
         "OPERATING_SYSTEM=Linux", "-e", "USEGPUS=false",
         "ionetcontainers/io-launch:v0.1"] := by
  refine ⟨by decide, by decide⟩

/-- C4: when the operating system resolved so far is macOS and the GPU
field is still unset, the GPU step forces `UseGPUs = "false"` and consumes
no input (never prompts), and the built command contains the
`MAC_INFO=...` environment token and the adjacent tokens `--pull always`. -/
theorem c4_macos_forces_usegpus_false_and_mac_tokens
    (a : Arguments) (inp : List String) (arch m : String)
    (hos : a.OperatingSystem = "macOS") (hunset : a.UseGPUs = "") :
    resolveUseGPUs a inp = some ({ a with UseGPUs := "false" }, inp)
    ∧ List.IsInfix ["-e", "MAC_INFO=" ++ goTrimSpace m]
        (constructDockerCommand { a with UseGPUs := "false" } arch m)
    ∧ List.IsInfix ["--pull", "always"]
        (constructDockerCommand { a with UseGPUs := "false" } arch m) := by
  refine ⟨by simp [resolveUseGPUs, hos], ?_, ?_⟩
  · refine ⟨["docker", "run", "-d", "-v", "/var/run/docker.sock:/var/run/docker.sock",
        "--network", "host", "-e", "ARCH=" ++ arch]
      ++ (if arch ≠ "x86_64" then ["--platform", "linux/amd64"] else [])
      ++ (if a.DeviceName ≠ "" then ["-e", "DEVICE_NAME=" ++ a.DeviceName] else [])
      ++ (if a.DeviceID ≠ "" then ["-e", "DEVICE_ID=" ++ a.DeviceID] else [])
      ++ (if a.UserID ≠ "" then ["-e", "USER_ID=" ++ a.UserID] else [])
      ++ ["-e", "OPERATING_SYSTEM=" ++ a.OperatingSystem, "-e", "USEGPUS=false"],
      ["--pull", "always"]
      ++ (if a.Beta then
            ["-e", "CURRENT_LOG_LEVEL=DEBUG", "-e", "ENVIRONMENT=DEV",
             "ionetcontainers/io-launch-beta:v0.1"]
          else ["ionetcontainers/io-launch:v0.1"]), ?_⟩
    simp [constructDockerCommand, hos, List.append_assoc]
  · refine ⟨["docker", "run", "-d", "-v", "/var/run/docker.sock:/var/run/docker.sock",
        "--network", "host", "-e", "ARCH=" ++ arch]
      ++ (if arch ≠ "x86_64" then ["--platform", "linux/amd64"] else [])
      ++ (if a.DeviceName ≠ "" then ["-e", "DEVICE_NAME=" ++ a.DeviceName] else [])
      ++ (if a.DeviceID ≠ "" then ["-e", "DEVICE_ID=" ++ a.DeviceID] else [])
      ++ (if a.UserID ≠ "" then ["-e", "USER_ID=" ++ a.UserID] else [])
      ++ ["-e", "OPERATING_SYSTEM=" ++ a.OperatingSystem, "-e", "USEGPUS=false",
          "-e", "MAC_INFO=" ++ goTrimSpace m],
      (if a.Beta then
            ["-e", "CURRENT_LOG_LEVEL=DEBUG", "-e", "ENVIRONMENT=DEV",
             "ionetcontainers/io-launch-beta:v0.1"]
          else ["ionetcontainers/io-launch:v0.1"]), ?_⟩
    simp [constructDockerCommand, hos, List.append_assoc]

/-- C4 witness: the theorem instantiated at a concrete macOS record with
unset GPU field, empty input, architecture `arm64` and raw sysctl output
`" info "`. -/
theorem c4_macos_forces_usegpus_false_and_mac_tokens_witness :
    resolveUseGPUs
        { DeviceName := "n", DeviceID := "id", UserID := "uid",
          OperatingSystem := "macOS", UseGPUs := "", Architecture := "",
          Beta := false } [] =
      some ({ DeviceName := "n", DeviceID := "id", UserID := "uid",
              OperatingSystem := "macOS", UseGPUs := "false", Architecture := "",
              Beta := false }, [])
    ∧ List.IsInfix ["-e", "MAC_INFO=" ++ goTrimSpace " info "]
        (constructDockerCommand
          { DeviceName := "n", DeviceID := "id", UserID := "uid",
            OperatingSystem := "macOS", UseGPUs := "false", Architecture := "",
            Beta := false } "arm64" " info ")
    ∧ List.IsInfix ["--pull", "always"]
        (constructDockerCommand
          { DeviceName := "n", DeviceID := "id", UserID := "uid",
            OperatingSystem := "macOS", UseGPUs := "false", Architecture := "",
            Beta := false } "arm64" " info ") :=
  c4_macos_forces_usegpus_false_and_mac_tokens
    { DeviceName := "n", DeviceID := "id", UserID := "uid",
      OperatingSystem := "macOS", UseGPUs := "", Architecture := "",
      Beta := false } [] "arm64" " info " rfl rfl

end IoLaunch

namespace IoLaunch

/-- C5 (amended): the Command Builder's output is fully determined by the
`Arguments` record, the architecture string and the sysctl `machdep`
snapshot it reads; when the operating system is not macOS the snapshot is
never consulted, so identical `(Arguments, architecture)` pairs give
identical token sequences. -/
theorem c5_builder_determined_without_macinfo_off_macos
    (a : Arguments) (arch m1 m2 : String) (h : a.OperatingSystem ≠ "macOS") :
    constructDockerCommand a arch m1 = constructDockerCommand a arch m2 := by
  simp [constructDockerCommand, h]

/-- C5 witness: the amended theorem instantiated at a concrete Linux
record, with two different sysctl snapshots. -/
theorem c5_builder_determined_without_macinfo_off_macos_witness :
    constructDockerCommand
        { DeviceName := "n", DeviceID := "i", UserID := "u",
          OperatingSystem := "Linux", UseGPUs := "true", Architecture := "x86_64",
          Beta := false } "x86_64" "p" =
      constructDockerCommand
        { DeviceName := "n", DeviceID := "i", UserID := "u",
          OperatingSystem := "Linux", UseGPUs := "true", Architecture := "x86_64",
          Beta := false } "x86_64" "q" :=
  c5_builder_determined_without_macinfo_off_macos
    { DeviceName := "n", DeviceID := "i", UserID := "u",
      OperatingSystem := "Linux", UseGPUs := "true", Architecture := "x86_64",
      Beta := false } "x86_64" "p" "q" (by decide)

/-- C5 counterexample: with a macOS record, two runs with the identical
`(Arguments, architecture)` pair but different live sysctl output produce
different token sequences, so the builder is not a pure function of
`(Arguments, architecture)` alone. -/
theorem c5_identical_args_different_output_counterexample :
    constructDockerCommand
        { DeviceName := "n", DeviceID := "i", UserID := "u",
          OperatingSystem := "macOS", UseGPUs := "false", Architecture := "arm64",
          Beta := false } "arm64" "alpha"
      ≠ constructDockerCommand
        { DeviceName := "n", DeviceID := "i", UserID := "u",
          OperatingSystem := "macOS", UseGPUs := "false", Architecture := "arm64",
          Beta := false } "arm64" "bravo" := by
  decide

/-- C6: for every `Arguments` record, architecture string and sysctl
snapshot, the built command contains the adjacent tokens
`--platform linux/amd64` exactly when the architecture string is not
`x86_64`. -/
theorem c6_platform_tokens_iff_arch_not_x86_64 (a : Arguments) (arch m : String) :
    List.IsInfix ["--platform", "linux/amd64"] (constructDockerCommand a arch m)
      ↔ arch ≠ "x86_64" := by
  constructor
  · intro h heq
    subst heq
    exact platform_not_mem a m (h.subset (List.mem_cons_self _ _))
  · exact platform_infix a arch m

/-- C7: when the external image listing for a tracked repository parses to
`N` image IDs, the janitor removes exactly the IDs after the first —
`N - 1` of them — so (for distinct IDs) the first-listed, most recent
image survives; an empty listing removes nothing. -/
theorem c7_janitor_removes_all_but_first (output : String) (ids : List String)
    (hids : getDockerImageIDsSorted output = ids) :
    janitorRemoved output = ids.drop 1
    ∧ (ids = [] → janitorRemoved output = [])
    ∧ ∀ h : ids ≠ [], (janitorRemoved output).length = ids.length - 1
        ∧ (ids.Nodup → ids.head h ∉ janitorRemoved output) := by
  have hrem : janitorRemoved output = ids.drop 1 := by
    unfold janitorRemoved
    rw [hids]
    rcases ids with _ | ⟨x, _ | ⟨y, t⟩⟩ <;> simp
  refine ⟨hrem, fun he => by simp [hrem, he], fun h => ⟨by simp [hrem], fun hnd => ?_⟩⟩
  rcases ids with _ | ⟨x, t⟩
  · exact absurd rfl h
  · simp [hrem]
    exact (List.nodup_cons.mp hnd).1

/-- C7 witness: a three-line listing parses to three IDs; the janitor
removes the second and third and keeps the first. -/
theorem c7_janitor_removes_all_but_first_witness :
    janitorRemoved "r:a t1 id1\nr:b t2 id2\nr:c t3 id3" = ["id2", "id3"]
    ∧ (janitorRemoved "r:a t1 id1\nr:b t2 id2\nr:c t3 id3").length = 2
    ∧ "id1" ∉ janitorRemoved "r:a t1 id1\nr:b t2 id2\nr:c t3 id3" := by
  have h := c7_janitor_removes_all_but_first "r:a t1 id1\nr:b t2 id2\nr:c t3 id3"
    ["id1", "id2", "id3"] (by decide)
  exact ⟨h.1, (h.2.2 (by decide)).1, (h.2.2 (by decide)).2 (by decide)⟩

end IoLaunch

namespace IoLaunch

/-- C8: a `fmt.Scanln` failure during any interactive prompt — the
identity/OS prompts or the GPU prompt, modelled by the prompt phase
returning `none` on exhausted input — makes the run end as
`Outcome.silentReturn`: the bare `return` that prints no error and builds
and executes no command.  In particular a run whose standard input is
closed from the start always ends that way (the device-ID prompt reads at
the latest, since no flag or cache value ever reaches `DeviceID`). -/
theorem c8_read_failure_silent_termination
    (f : Flags) (c : Cache) (w : World) (inp : List String)
    (h1 : w.dockerOk1 = true) (h2 : w.cleanupOk = true) :
    (resolveIdentityOS (fallbackResolve f c) inp = none →
      runMain f c w inp = Outcome.silentReturn)
    ∧ (∀ a1 inp1 a2, resolveIdentityOS (fallbackResolve f c) inp = some (a1, inp1) →
        resolveArchitecture a1 w.unameResult = some a2 →
        resolveUseGPUs a2 inp1 = none →
        runMain f c w inp = Outcome.silentReturn)
    ∧ runMain f c w [] = Outcome.silentReturn := by
  refine ⟨?_, ?_, ?_⟩
  · intro hres
    simp [runMain, h1, h2, hres]
  · intro a1 inp1 a2 hres harch hgpu
    simp [runMain, h1, h2, hres, harch, hgpu]
  · simp [runMain, h1, h2, resolveIdentityOS_nil]

/-- C8 witness: with all flags absent, an empty cache and closed standard
input, the run terminates silently. -/
theorem c8_read_failure_silent_termination_witness :
    runMain
        { device_name := "", device_id := "", user_id := "",
          operating_system := "", usegpus := "", arch := "", beta := false } []
        { dockerOk1 := true, cleanupOk := true, unameResult := some "x86_64",
          gpuOk := true, ctkOk := true, dockerOk2 := true, macSilicon := true,
          saveOk := true, macInfo := some "" } [] = Outcome.silentReturn :=
  (c8_read_failure_silent_termination
    { device_name := "", device_id := "", user_id := "",
      operating_system := "", usegpus := "", arch := "", beta := false } []
    { dockerOk1 := true, cleanupOk := true, unameResult := some "x86_64",
      gpuOk := true, ctkOk := true, dockerOk2 := true, macSilicon := true,
      saveOk := true, macInfo := some "" } [] rfl rfl).2.2

/-- C9: when every fallback branch that fires finds its cache key absent
(and at least one fires — e.g. some flag is empty), the fallback block
leaves the four-character literal `"<nil>"` in `DeviceName`; that value is
non-empty, so the device-name prompt loop exits immediately, consuming no
input. -/
theorem c9_missing_cache_key_nil_device_name
    (f : Flags) (c : Cache) (inp : List String)
    (hdn : f.device_name = "" → List.lookup "device_name" c = none)
    (hdi : f.device_id = "" → List.lookup "device_id" c = none)
    (hui : f.user_id = "" → List.lookup "user_id" c = none)
    (hos : f.operating_system = "" → List.lookup "operating_system" c = none)
    (hug : f.usegpus = "" → List.lookup "usegpus" c = none)
    (har : f.arch = "" → List.lookup "arch" c = none)
    (hbe : f.beta = true → List.lookup "beta" c = none)
    (hfire : f.device_name = "" ∨ f.device_id = "" ∨ f.user_id = "" ∨
      f.operating_system = "" ∨ f.usegpus = "" ∨ f.arch = "" ∨ f.beta = true) :
    (fallbackResolve f c).DeviceName = "<nil>"
    ∧ (fallbackResolve f c).DeviceName ≠ ""
    ∧ promptLoop (fun x => x.DeviceName == "") (fun x s => { x with DeviceName := s })
        (fallbackResolve f c) inp = some (fallbackResolve f c, inp) := by
  have hname : (fallbackResolve f c).DeviceName = "<nil>" := by
    rw [fallbackResolve_eq]
    by_cases hb : f.beta = true
    · simp [hb, cacheFormat, hbe hb]
    · by_cases ha : f.arch = ""
      · simp [hb, ha, cacheFormat, har ha]
      · by_cases hg : f.usegpus = ""
        · simp [hb, ha, hg, cacheFormat, hug hg]
        · by_cases ho : f.operating_system = ""
          · simp [hb, ha, hg, ho, cacheFormat, hos ho]
          · by_cases hu : f.user_id = ""
            · simp [hb, ha, hg, ho, hu, cacheFormat, hui hu]
            · by_cases hd : f.device_id = ""
              · simp [hb, ha, hg, ho, hu, hd, cacheFormat, hdi hd]
              · by_cases hn : f.device_name = ""
                · simp [hb, ha, hg, ho, hu, hd, hn, cacheFormat, hdn hn]
                · rcases hfire with h | h | h | h | h | h | h <;> simp_all
  refine ⟨hname, by simp [hname], ?_⟩
  cases inp <;> simp [promptLoop, hname]

/-- C9 witness: all flags empty, empty cache, one pending input line: the
fallback yields `DeviceName = "<nil>"` and the device-name prompt loop
returns at once without touching the input. -/
theorem c9_missing_cache_key_nil_device_name_witness :
    (fallbackResolve
        { device_name := "", device_id := "", user_id := "",
          operating_system := "", usegpus := "", arch := "", beta := false }
        []).DeviceName = "<nil>"
    ∧ (fallbackResolve
        { device_name := "", device_id := "", user_id := "",
          operating_system := "", usegpus := "", arch := "", beta := false }
        []).DeviceName ≠ ""
    ∧ promptLoop (fun x => x.DeviceName == "") (fun x s => { x with DeviceName := s })
        (fallbackResolve
          { device_name := "", device_id := "", user_id := "",
            operating_system := "", usegpus := "", arch := "", beta := false }
          []) ["x"] =
      some (fallbackResolve
        { device_name := "", device_id := "", user_id := "",
          operating_system := "", usegpus := "", arch := "", beta := false }
        [], ["x"]) := by
  refine c9_missing_cache_key_nil_device_name
    { device_name := "", device_id := "", user_id := "",
      operating_system := "", usegpus := "", arch := "", beta := false }
    [] ["x"] ?_ ?_ ?_ ?_ ?_ ?_ ?_ (Or.inl rfl)
  all_goals exact fun _ => rfl

/-- C10: every built command starts with the nine fixed tokens
`docker run -d -v /var/run/docker.sock:/var/run/docker.sock --network host
-e ARCH=<architecture>`, and its final token is the beta image reference
when `Beta` is set and the stable image reference otherwise. -/
theorem c10_command_prefix_and_final_image (a : Arguments) (arch m : String) :
    (constructDockerCommand a arch m).take 9 =
      ["docker", "run", "-d", "-v", "/var/run/docker.sock:/var/run/docker.sock",
       "--network", "host", "-e", "ARCH=" ++ arch]
    ∧ (constructDockerCommand a arch m).getLast? =
      some (if a.Beta then "ionetcontainers/io-launch-beta:v0.1"
            else "ionetcontainers/io-launch:v0.1") := by
  constructor
  · have h : constructDockerCommand a arch m =
        ["docker", "run", "-d", "-v", "/var/run/docker.sock:/var/run/docker.sock",
         "--network", "host", "-e", "ARCH=" ++ arch] ++
        ((if arch ≠ "x86_64" then ["--platform", "linux/amd64"] else [])
        ++ (if a.DeviceName ≠ "" then ["-e", "DEVICE_NAME=" ++ a.DeviceName] else [])
        ++ (if a.DeviceID ≠ "" then ["-e", "DEVICE_ID=" ++ a.DeviceID] else [])
        ++ (if a.UserID ≠ "" then ["-e", "USER_ID=" ++ a.UserID] else [])
        ++ (if a.OperatingSystem ≠ "" then ["-e", "OPERATING_SYSTEM=" ++ a.OperatingSystem] else [])
        ++ (if a.UseGPUs ≠ "" then ["-e", "USEGPUS=" ++ a.UseGPUs] else [])
        ++ (if a.OperatingSystem = "macOS" then
              ["-e", "MAC_INFO=" ++ goTrimSpace m, "--pull", "always"] else [])
        ++ (if a.Beta then
              ["-e", "CURRENT_LOG_LEVEL=DEBUG", "-e", "ENVIRONMENT=DEV",
               "ionetcontainers/io-launch-beta:v0.1"]
            else ["ionetcontainers/io-launch:v0.1"])) := by
      simp [constructDockerCommand, List.append_assoc]
    rw [h]
    rfl
  · unfold constructDockerCommand
    rw [List.getLast?_append]
    cases hb : a.Beta <;> simp [hb]

end IoLaunch
